import Mathlib

/-!
Verification development for the `sser` pub/sub engine
(`internal/controller/pubsub/controller.go` and its neighbours).

The Go code is shallowly embedded: the mutable state of the controller
(`sync.Map` registry, atomic metric counters) becomes an explicit
`EngineState`; each public operation becomes a pure function from a
state and a request to a result paired with the successor state.
Sources of nondeterminism that live outside the controller (the id
generator, `crypto/rand`, the key/value recorder) are passed in as
explicit oracle arguments.  Counters are Go `int64`s mutated with
`atomic.AddInt64`, which wraps; we model them as `Int` with an explicit
wrap into the int64 range.  Asynchronous dispatch is observed through a
ghost `dispatchLog` that records, for each internal publish that found
its topic, the topic id, the message and the subscriber snapshot the
dispatch goroutine was handed.
-/

namespace Sser

/-- Wrap of an integer into the `int64` range, modelling the overflow
behaviour of `atomic.AddInt64` in Go. -/
def wrap64 (x : Int) : Int :=
  (x + 2 ^ 63) % 2 ^ 64 - 2 ^ 63

/-- Metric keys, from the `metric` enumeration in the metrics file
(`metricInvalid` is never used by the engine and is elided). -/
inductive MetricKey where
  | topics
  | staticTopics
  | activeTopics
  | subscribers
  | activeSubscribers
  | messageReceived
  | messageSent
deriving DecidableEq, Repr

/-- Names of the metric keys, from `metric.String()`. -/
def MetricKey.name : MetricKey → String
  | .topics => "topics"
  | .staticTopics => "static_topics"
  | .activeTopics => "active_topics"
  | .subscribers => "subscribers"
  | .activeSubscribers => "active_subscribers"
  | .messageReceived => "message_received"
  | .messageSent => "message_sent"

/-- The fixed map of `int64` counters held by `metrics.vals`. -/
structure Metrics where
  topics : Int
  staticTopics : Int
  activeTopics : Int
  subscribers : Int
  activeSubscribers : Int
  messageReceived : Int
  messageSent : Int
deriving DecidableEq, Repr

/-- All counters initialize to 0 (`newMetrics`). -/
def Metrics.init : Metrics :=
  ⟨0, 0, 0, 0, 0, 0, 0⟩

/-- Read a counter (`metrics.get`). -/
def Metrics.get (m : Metrics) : MetricKey → Int
  | .topics => m.topics
  | .staticTopics => m.staticTopics
  | .activeTopics => m.activeTopics
  | .subscribers => m.subscribers
  | .activeSubscribers => m.activeSubscribers
  | .messageReceived => m.messageReceived
  | .messageSent => m.messageSent

/-- Add `val` to the counter `k` (`metrics.incBy`; `inc` and `dec` are
the `1` and `-1` instances).  `atomic.AddInt64` wraps on overflow. -/
def Metrics.add (m : Metrics) (k : MetricKey) (val : Int) : Metrics :=
  match k with
  | .topics => { m with topics := wrap64 (m.topics + val) }
  | .staticTopics => { m with staticTopics := wrap64 (m.staticTopics + val) }
  | .activeTopics => { m with activeTopics := wrap64 (m.activeTopics + val) }
  | .subscribers => { m with subscribers := wrap64 (m.subscribers + val) }
  | .activeSubscribers =>
      { m with activeSubscribers := wrap64 (m.activeSubscribers + val) }
  | .messageReceived =>
      { m with messageReceived := wrap64 (m.messageReceived + val) }
  | .messageSent => { m with messageSent := wrap64 (m.messageSent + val) }

/-- A subscriber: a process-unique id and an unbuffered channel.  The
channel itself carries no state the claims observe, so the subscriber
is represented by its id alone. -/
structure Subscriber where
  id : Int
deriving DecidableEq, Repr

/-- A topic (`pubsub` struct): id, static flag, ordered subscriber
sequence and the authorization token bytes.  The per-topic `RWMutex`
serializes access in Go; state transitions of the model are atomic. -/
structure PubSub where
  id : Int
  static : Bool
  subscribers : List Subscriber
  token : List Nat
deriving DecidableEq, Repr

/-- Engine state: the topic registry (`sync.Map`, a map from `int64`
ids to topics), the metric counters, and a ghost log of dispatched
publishes `(topic id, message, subscriber-id snapshot)`. -/
structure EngineState where
  registry : Int → Option PubSub
  metrics : Metrics
  dispatchLog : List (Int × String × List Int)

/-- Engine-originated error: HTTP-style code and message (the free-form
`Details` map carries no information the claims observe). -/
structure Err where
  code : Int
  message : String
deriving DecidableEq, Repr

/-- Store a topic under a key (`sync.Map.Store`). -/
def storeReg (reg : Int → Option PubSub) (k : Int) (v : PubSub) :
    Int → Option PubSub :=
  fun i => if i = k then some v else reg i

/-- Remove a key (`sync.Map.Delete`). -/
def deleteReg (reg : Int → Option PubSub) (k : Int) :
    Int → Option PubSub :=
  fun i => if i = k then none else reg i

/-- Byte-wise comparison with an early exit, the semantics of the Go
function `bytes.Equal` (length check, then `memequal`, which stops at the first
differing byte).  The second component counts the byte comparisons
performed, making the running time of the comparison observable. -/
def bytesEqualLoop : List Nat → List Nat → Bool × Nat
  | [], _ => (true, 0)
  | _ :: _, [] => (false, 0)
  | a :: as, b :: bs =>
      if a = b then
        let r := bytesEqualLoop as bs
        (r.1, r.2 + 1)
      else
        (false, 1)

/-- Model of `bytes.Equal` with an instrumented comparison count. -/
def bytesEqual (a b : List Nat) : Bool × Nat :=
  if a.length = b.length then bytesEqualLoop a b else (false, 0)

/-- Static topic configuration entry (`StaticPubSubConfig`). -/
structure StaticPubSubConfig where
  id : Int
  name : String
  token : List Nat
deriving DecidableEq, Repr

/-- Controller configuration (`pubsubConfig`; the two duration fields
do not influence any state transition the claims observe, so only
`tickFrequency` is kept, as an opaque integer). -/
structure Config where
  apiAccessToken : List Nat
  metricsAccessToken : List Nat
  tickFrequency : Int
  staticPubSubs : List StaticPubSubConfig

/-- Internal publish primitive (`controller.publish`): look up the
topic (404 when absent), snapshot the subscribers under the read lock,
hand the snapshot to the dispatch goroutine (recorded in the ghost
log), and return the snapshot length.  It touches no counter. -/
def publishInternal (s : EngineState) (id : Int) (msg : String) :
    Except Err Nat × EngineState :=
  match s.registry id with
  | none => (.error ⟨404, "pubsub not found"⟩, s)
  | some ps =>
      (.ok ps.subscribers.length,
       { s with dispatchLog :=
           s.dispatchLog ++ [(id, msg, ps.subscribers.map (·.id))] })

/-- JSON body self-published on a metric mutation, from the
`fmt.Sprintf` in `controller.inc`/`incBy`/`dec`. -/
def metricMsg (val : Int) (k : MetricKey) : String :=
  "\x7b\"val\": " ++ toString val ++ ", \"metric\": \"" ++ k.name ++ "\"\x7d"

/-- Engine-side `incBy`: self-publish the delta to reserved topic 0
(errors discarded), then mutate the counter. -/
def incByMetric (s : EngineState) (k : MetricKey) (val : Int) : EngineState :=
  let s1 := (publishInternal s 0 (metricMsg val k)).2
  { s1 with metrics := s1.metrics.add k val }

/-- Engine-side `inc`: self-publish `{"val": 1, ...}` then add 1. -/
def incMetric (s : EngineState) (k : MetricKey) : EngineState :=
  let s1 := (publishInternal s 0 (metricMsg 1 k)).2
  { s1 with metrics := s1.metrics.add k 1 }

/-- Engine-side `dec`: self-publish `{"val": -1, ...}` then subtract 1. -/
def decMetric (s : EngineState) (k : MetricKey) : EngineState :=
  let s1 := (publishInternal s 0 (metricMsg (-1) k)).2
  { s1 with metrics := s1.metrics.add k (-1) }

/-- Request for `Create` (`entity.CreatePubSubRequest`). -/
structure CreateReq where
  apiAccessToken : List Nat
  persist : Bool
deriving DecidableEq, Repr

/-- Response of `Create` (`entity.CreatePubSubResponse`). -/
structure CreateResp where
  id : Int
  token : List Nat
deriving DecidableEq, Repr

/-- The `Create` operation.  Oracle arguments stand for the external
effects: `newId` is `c.idgen.Next()`, `tokRes` the outcome of the
`generateRandom64()` call (`none` for a failed random read), `kvPresent`
whether `c.kv` is non-nil, and `kvSetOk` the outcome of `c.kv.Set`.
Go registers `defer c.inc(metricTopics); defer c.inc(metricActiveTopics)`
right after the token check, so every later return — error returns
included — runs both increments (in LIFO order) on the way out. -/
def createOp (cfg : Config) (kvPresent : Bool) (s : EngineState)
    (req : CreateReq) (newId : Int) (tokRes : Option (List Nat))
    (kvSetOk : Bool) : Except Err CreateResp × EngineState :=
  if req.apiAccessToken ≠ cfg.apiAccessToken then
    (.error ⟨401, "API access token mismatch"⟩, s)
  else
    let finish := fun (st : EngineState) =>
      incMetric (incMetric st .activeTopics) .topics
    match tokRes with
    | none => (.error ⟨500, "Couldn\x27t generate random token"⟩, finish s)
    | some token =>
        if req.persist ∧ ¬kvPresent then
          (.error ⟨400, "Persistent store is not available"⟩, finish s)
        else if req.persist ∧ ¬kvSetOk then
          (.error ⟨500, "Couldn\x27t persist to store"⟩, finish s)
        else
          let t : PubSub := ⟨newId, false, [], token⟩
          let s1 := { s with registry := storeReg s.registry newId t }
          (.ok { id := newId, token }, finish s1)

/-- Request for `Delete` (`entity.DeletePubSubRequest`). -/
structure DeleteReq where
  apiAccessToken : List Nat
  id : Int
deriving DecidableEq, Repr

/-- The `Delete` operation.  `kvDelOk` is the outcome of `c.kv.Delete`
when a recorder is present.  An absent topic returns success without
touching anything; a static topic fails with 400; otherwise every
subscriber channel is closed, the topic is removed and (by the deferred
`c.dec`) `active_topics` is decremented. -/
def deleteOp (cfg : Config) (kvPresent : Bool) (s : EngineState)
    (req : DeleteReq) (kvDelOk : Bool) : Except Err Unit × EngineState :=
  if req.apiAccessToken ≠ cfg.apiAccessToken then
    (.error ⟨401, "API access token mismatch"⟩, s)
  else
    match s.registry req.id with
    | none => (.ok (), s)
    | some ps =>
        if ps.static then
          (.error ⟨400, "static pubsubs can\x27t be deleted"⟩, s)
        else if kvPresent ∧ ¬kvDelOk then
          (.error ⟨500, "Couldn\x27t delete the pubsub from storage"⟩, s)
        else
          let s1 := { s with registry := deleteReg s.registry req.id }
          (.ok (), decMetric s1 .activeTopics)

/-- Request for `Publish` (`entity.PublishRequest`). -/
structure PublishReq where
  apiAccessToken : List Nat
  pubSubID : Int
  message : String
deriving DecidableEq, Repr

/-- Response of `Publish` (`entity.PublishResponse`). -/
structure PublishResp where
  id : Int
deriving DecidableEq, Repr

/-- The public `Publish` operation.  `newEvId` is the `c.idgen.Next()`
used for the event id.  On success, the deferred counter updates run in
LIFO order: `incBy(message_sent, cnt)`, then `inc(message_received)`. -/
def publishOp (cfg : Config) (s : EngineState) (req : PublishReq)
    (newEvId : Int) : Except Err PublishResp × EngineState :=
  if req.apiAccessToken ≠ cfg.apiAccessToken then
    (.error ⟨401, "API access token mismatch"⟩, s)
  else
    match publishInternal s req.pubSubID req.message with
    | (.error e, s1) => (.error e, s1)
    | (.ok cnt, s1) =>
        let s2 := incByMetric s1 .messageSent (Int.ofNat cnt)
        let s3 := incMetric s2 .messageReceived
        (.ok { id := newEvId }, s3)

/-- Request for `Subscribe` (`entity.SubscribeRequest`). -/
structure SubscribeReq where
  pubSubID : Int
  token : List Nat
deriving DecidableEq, Repr

/-- Response of `Subscribe` (`entity.SubscribeResponse`; the channel is
identified by the subscriber id). -/
structure SubscribeResp where
  id : Int
  tickFrequency : Int
deriving DecidableEq, Repr

/-- The `Subscribe` operation.  `newId` is `c.idgen.Next()`.  The token
check is `bytes.Equal(pubsub.token, req.Token)`.  On success the
subscriber is appended under the write lock and the deferred updates
run in LIFO order: `inc(subscribers)`, then `inc(active_subscribers)`. -/
def subscribeOp (cfg : Config) (s : EngineState) (req : SubscribeReq)
    (newId : Int) : Except Err SubscribeResp × EngineState :=
  match s.registry req.pubSubID with
  | none => (.error ⟨404, "pubsub not found"⟩, s)
  | some ps =>
      if !(bytesEqual ps.token req.token).1 then
        (.error ⟨401, "token mismatch for the pubsub"⟩, s)
      else
        let ps1 := { ps with subscribers := ps.subscribers ++ [⟨newId⟩] }
        let s1 := { s with registry := storeReg s.registry req.pubSubID ps1 }
        let s2 := incMetric s1 .subscribers
        let s3 := incMetric s2 .activeSubscribers
        (.ok { id := newId, tickFrequency := cfg.tickFrequency }, s3)

/-- Request for `Unsubscribe` (`entity.UnsubscribeRequest`). -/
structure UnsubscribeReq where
  pubSubID : Int
  id : Int
  token : List Nat
deriving DecidableEq, Repr

/-- Removal loop of `Unsubscribe`: find the first subscriber with the
given id, swap it with the last element and truncate; leave the list
unchanged when the id is absent. -/
def swapRemove (l : List Subscriber) (sid : Int) : List Subscriber :=
  match l.findIdx? (fun sub => sub.id = sid) with
  | none => l
  | some i => (l.set i (l.getLastD ⟨0⟩)).dropLast

/-- The `Unsubscribe` operation.  The token check is `bytes.Equal`.
The deferred `c.dec(metricActiveSubscribers)` runs on every successful
return, whether or not the loop removed a subscriber. -/
def unsubscribeOp (_cfg : Config) (s : EngineState) (req : UnsubscribeReq) :
    Except Err Unit × EngineState :=
  match s.registry req.pubSubID with
  | none => (.error ⟨404, "pubsub not found"⟩, s)
  | some ps =>
      if !(bytesEqual ps.token req.token).1 then
        (.error ⟨401, "token mismatch for the pubsub"⟩, s)
      else
        let ps1 := { ps with subscribers := swapRemove ps.subscribers req.id }
        let s1 := { s with registry := storeReg s.registry req.pubSubID ps1 }
        (.ok (), decMetric s1 .activeSubscribers)

/-- Loop body of `registerStaticPubSubs` over the configured entries:
an entry with `id == 0` or an empty token aborts with an error,
otherwise the topic is stored with `static = true`. -/
def registerStaticLoop (s : EngineState) :
    List StaticPubSubConfig → Except String EngineState
  | [] => .ok s
  | ps :: rest =>
      if ps.id = 0 then
        .error ("[pubsub] id for static token must be >= 1 (name: "
          ++ ps.name ++ ")")
      else if ps.token.length < 1 then
        .error ("[pubsub] token must be >= 1 chars (name: "
          ++ ps.name ++ ")")
      else
        let t : PubSub := ⟨ps.id, true, [], ps.token⟩
        registerStaticLoop
          { s with registry := storeReg s.registry ps.id t } rest

/-- Reserved metrics topic stored first by `registerStaticPubSubs`:
id 0, `static = true`, token equal to the metrics access token. -/
def reservedTopic (cfg : Config) : PubSub :=
  ⟨0, true, [], cfg.metricsAccessToken⟩

/-- First step of `registerStaticPubSubs`: store the reserved topic 0. -/
def staticSeed (cfg : Config) (s : EngineState) : EngineState :=
  { s with registry := storeReg s.registry 0 (reservedTopic cfg) }

/-- Startup registration of static topics (`registerStaticPubSubs`):
store the reserved topic 0 with the metrics access token, insert every
configured entry, then bump `topics`, `active_topics` and
`static_topics` by the static count including the reserved topic. -/
def registerStaticPubSubs (cfg : Config) (s : EngineState) :
    Except String EngineState :=
  match registerStaticLoop (staticSeed cfg s) cfg.staticPubSubs with
  | .error e => .error e
  | .ok s1 =>
      let n := Int.ofNat (cfg.staticPubSubs.length + 1)
      let s2 := incByMetric s1 .topics n
      let s3 := incByMetric s2 .activeTopics n
      let s4 := incByMetric s3 .staticTopics n
      .ok s4

/-- The empty engine state a fresh controller starts from (`New`). -/
def emptyState : EngineState :=
  { registry := fun _ => none, metrics := Metrics.init, dispatchLog := [] }

/-- Controller construction without a recorder: `New` runs
`registerStaticPubSubs` on the empty state (`registerPersistentPubSubs`
is a no-op when `c.kv` is nil). -/
def newController (cfg : Config) : Except String EngineState :=
  registerStaticPubSubs cfg emptyState

/-! ### Token generator (`generateRandom64`)

The Go function reads 64 random bytes, interprets them as a big-endian
`big.Int`, renders that integer in base 62 with `num.Text(62)` and
slices the first 64 characters.  The base-62 rendering is the standard
repeated-divmod loop of `math/big` (digits `0-9`, `a-z`, `A-Z`, most
significant first); it is embedded with an explicit fuel argument so
that it computes by structural recursion.  A Go slice `s[:64]` panics
when `len(s) < 64`; the panic is modelled as `none`. -/

/-- Little-endian base-62 digits of `n`, by repeated divmod; `fuel`
bounds the recursion and is immaterial whenever `n ≤ fuel`. -/
def digits62Aux : Nat → Nat → List Nat
  | 0, _ => []
  | _ + 1, 0 => []
  | fuel + 1, n + 1 => ((n + 1) % 62) :: digits62Aux fuel ((n + 1) / 62)

/-- Digit alphabet of `big.Int.Text`: `0123456789a..zA..Z`. -/
def digitChar62 (d : Nat) : Char :=
  if d < 10 then Char.ofNat (48 + d)
  else if d < 36 then Char.ofNat (97 + (d - 10))
  else Char.ofNat (65 + (d - 36))

/-- Base-62 text of a natural number (`num.Text(62)`); the zero input
renders as `"0"`. -/
def text62 (n : Nat) : String :=
  if n = 0 then "0"
  else ((digits62Aux n n).reverse.map digitChar62).asString

/-- Big-endian byte interpretation (`new(big.Int).SetBytes`). -/
def bytesToNat (bs : List Nat) : Nat :=
  bs.foldl (fun a b => a * 256 + b) 0

/-- Model of `generateRandom64`, parameterized by the 64 bytes the
random source produced: render their big-endian value in base 62 and
take the first 64 characters; when the rendering is shorter than 64
characters the Go slice expression is out of bounds (`none`). -/
def generateRandom64 (bs : List Nat) : Option String :=
  let s := text62 (bytesToNat bs)
  if 64 ≤ s.length then some ((s.toList.take 64).asString) else none

/-! ### Request mapping (`FromHttpRequestToPublishRequest`)

The HTTP publish body is parsed with `json.Unmarshal` into
`map[string]view.PublishRequest`, where `view.PublishRequest` declares
`Message string`.  The JSON text itself is out of scope; the mapper is
modelled on an already-parsed JSON value. -/

/-- Parsed JSON values (numbers restricted to integers, which suffices
for the claims). -/
inductive Json where
  | null
  | bool (b : Bool)
  | num (n : Int)
  | str (s : String)
  | arr (elems : List Json)
  | obj (fields : List (String × Json))
deriving Repr, BEq

/-- Modelled from the spec: the serialization of a JSON value, used to
state what the spec calls "the serialized JSON value" of the publish
message (string escaping is elided; the claims use plain values). -/
def serializeJson : Json → String
  | .null => "null"
  | .bool true => "true"
  | .bool false => "false"
  | .num n => toString n
  | .str s => "\"" ++ s ++ "\""
  | .arr xs =>
      "[" ++ String.intercalate "," (xs.attach.map (fun x => serializeJson x.1))
        ++ "]"
  | .obj fs =>
      "\x7b" ++ String.intercalate ","
        (fs.attach.map (fun kv => "\"" ++ kv.1.1 ++ "\":" ++ serializeJson kv.1.2))
      ++ "\x7d"
termination_by j => sizeOf j
decreasing_by
  all_goals simp_wf
  · have h := List.sizeOf_lt_of_mem x.2
    omega
  · have h := List.sizeOf_lt_of_mem kv.2
    have h2 : sizeOf kv.1.2 < sizeOf kv.1 := by
      obtain ⟨⟨a, b⟩, hm⟩ := kv
      simp
    omega

/-- Decoded form of `view.PublishRequest` (`Message string`). -/
structure PublishView where
  message : String
deriving DecidableEq, Repr

/-- Last binding of a key in a JSON object, matching the Go decoder
where a later duplicate key overwrites an earlier one. -/
def lookupLast (fields : List (String × Json)) (k : String) : Option Json :=
  (fields.reverse.find? (fun kv => kv.1 = k)).map (·.2)

/-- Decoding of one `view.PublishRequest`: `json.Unmarshal` accepts an
object or `null`; the `message` field, when present, must be a JSON
string or `null` (any other type is an unmarshal type error); a missing
field leaves the zero value `""`. -/
def decodePublishView : Json → Option PublishView
  | .null => some ⟨""⟩
  | .obj fields =>
      match lookupLast fields "message" with
      | none => some ⟨""⟩
      | some .null => some ⟨""⟩
      | some (.str s) => some ⟨s⟩
      | some _ => none
  | _ => none

/-- Decoding of `map[string]view.PublishRequest`: the body must be a
JSON object (or `null`, giving an empty map); every value must decode
as a `view.PublishRequest`. -/
def decodePublishMap : Json → Option (List (String × PublishView))
  | .null => some []
  | .obj fields =>
      fields.mapM (fun kv => (decodePublishView kv.2).map (fun pv => (kv.1, pv)))
  | _ => none

/-- Model of `FromHttpRequestToPublishRequest` on a parsed body: decode
the map (`nil` request — rejected as malformed payload — when the
unmarshal fails), index it at `"event"` (a missing key yields the zero
value), and take the `Message` bytes. -/
def FromHttpRequestToPublishRequest (apiTok : List Nat) (id : Int)
    (body : Json) : Option PublishReq :=
  match decodePublishMap body with
  | none => none
  | some views =>
      let ev := ((views.reverse.find? (fun kv => kv.1 = "event")).map (·.2)).getD ⟨""⟩
      some ⟨apiTok, id, ev.message⟩

/-! ### Operation traces

A trace element packages one public engine call together with the
oracle values its externals produced; running a trace folds the
operations over a state.  Alongside the run, three tallies are taken:
successful `Subscribe` calls, successful `Unsubscribe` calls, and the
subscribers that were in a topic when a successful `Delete` removed it. -/

/-- One public engine call with its oracle values. -/
inductive Op where
  | create (req : CreateReq) (newId : Int) (tokRes : Option (List Nat))
      (kvSetOk : Bool)
  | delete (req : DeleteReq) (kvDelOk : Bool)
  | publish (req : PublishReq) (newEvId : Int)
  | subscribe (req : SubscribeReq) (newId : Int)
  | unsubscribe (req : UnsubscribeReq)

/-- Successor state of one call. -/
def stepOp (cfg : Config) (kvP : Bool) (s : EngineState) : Op → EngineState
  | .create req newId tokRes kvSetOk =>
      (createOp cfg kvP s req newId tokRes kvSetOk).2
  | .delete req kvDelOk => (deleteOp cfg kvP s req kvDelOk).2
  | .publish req newEvId => (publishOp cfg s req newEvId).2
  | .subscribe req newId => (subscribeOp cfg s req newId).2
  | .unsubscribe req => (unsubscribeOp cfg s req).2

/-- Whether an `Except` result is a success. -/
def isOkE : Except ε α → Bool
  | .ok _ => true
  | .error _ => false

/-- Indicator of a successful `Subscribe` call in state `s`. -/
def subSuccess (cfg : Config) (s : EngineState) : Op → Bool
  | .subscribe req newId => isOkE (subscribeOp cfg s req newId).1
  | _ => false

/-- Indicator of a successful `Unsubscribe` call in state `s`. -/
def unsubSuccess (cfg : Config) (s : EngineState) : Op → Bool
  | .unsubscribe req => isOkE (unsubscribeOp cfg s req).1
  | _ => false

/-- Number of subscribers removed by a `Delete` call in state `s`:
the subscriber count of the topic when the delete succeeds on an
existing topic, `0` otherwise. -/
def delRemoved (cfg : Config) (kvP : Bool) (s : EngineState) : Op → Nat
  | .delete req kvDelOk =>
      if isOkE (deleteOp cfg kvP s req kvDelOk).1 then
        match s.registry req.id with
        | some ps => ps.subscribers.length
        | none => 0
      else 0
  | _ => 0

/-- Fold a trace of calls over a state. -/
def runOps (cfg : Config) (kvP : Bool) : EngineState → List Op → EngineState
  | s, [] => s
  | s, o :: ops => runOps cfg kvP (stepOp cfg kvP s o) ops

/-- Tally of successful `Subscribe` calls along a trace. -/
def countSub (cfg : Config) (kvP : Bool) : EngineState → List Op → Nat
  | _, [] => 0
  | s, o :: ops =>
      (if subSuccess cfg s o then 1 else 0)
        + countSub cfg kvP (stepOp cfg kvP s o) ops

/-- Tally of successful `Unsubscribe` calls along a trace. -/
def countUnsub (cfg : Config) (kvP : Bool) : EngineState → List Op → Nat
  | _, [] => 0
  | s, o :: ops =>
      (if unsubSuccess cfg s o then 1 else 0)
        + countUnsub cfg kvP (stepOp cfg kvP s o) ops

/-- Tally of subscribers removed by successful `Delete` calls along a
trace. -/
def countDelRemoved (cfg : Config) (kvP : Bool) :
    EngineState → List Op → Nat
  | _, [] => 0
  | s, o :: ops =>
      delRemoved cfg kvP s o
        + countDelRemoved cfg kvP (stepOp cfg kvP s o) ops

deriving instance DecidableEq for Except

/-! ### Concrete instances used by witnesses and counterexamples -/

/-- Example configuration: api token byte `97`, metrics token byte
`109`, no static topics. -/
def exCfg : Config := ⟨[97], [109], 30, []⟩

/-- The startup state of a controller under `exCfg` (no recorder). -/
def exInit : EngineState :=
  match newController exCfg with
  | .ok s => s
  | .error _ => emptyState

/-- Example trace: create topic 5, subscribe subscriber 7 to it, then
delete the topic while the subscriber is attached. -/
def exTrace : List Op :=
  [.create ⟨[97], false⟩ 5 (some [1, 2, 3]) true,
   .subscribe ⟨5, [1, 2, 3]⟩ 7,
   .delete ⟨[97], 5⟩ true]

/-- Example topic with two subscribers. -/
def exPS : PubSub := ⟨5, false, [⟨7⟩, ⟨8⟩], [1, 2, 3]⟩

/-- Example state holding only `exPS` (counters at zero). -/
def exState : EngineState :=
  ⟨storeReg (fun _ => none) 5 exPS, Metrics.init, []⟩

/-- Example state holding the reserved topic 0 and the static topic 1,
as registered from a configuration with one static entry. -/
def exStaticCfg : Config := ⟨[97], [109], 30, [⟨1, "t", [116]⟩]⟩

/-- Example configuration whose single static entry has the negative id
`-1` (and a non-empty token). -/
def exNegCfg : Config := ⟨[97], [109], 30, [⟨-1, "x", [116]⟩]⟩

/-- Example publish body `{"event": {"message": 5}}` — the message is
the JSON number 5, not a string. -/
def exNumBody : Json :=
  Json.obj [("event", Json.obj [("message", Json.num 5)])]

/-- Example 64-byte random input whose big-endian value is `256 ^ 63`. -/
def exBigBytes : List Nat := 1 :: List.replicate 63 0

/-- The engine state registered from `exStaticCfg` at startup. -/
def exStaticState : EngineState :=
  match registerStaticPubSubs exStaticCfg emptyState with
  | .ok s => s
  | .error _ => emptyState

/-! ### Helper lemmas -/

lemma wrap64_wrap64_add (x y : Int) : wrap64 (wrap64 x + y) = wrap64 (x + y) := by
  simp only [wrap64, show (2 : Int) ^ 63 = 9223372036854775808 by norm_num,
    show (2 : Int) ^ 64 = 18446744073709551616 by norm_num]
  omega

lemma wrap64_idem (x : Int) : wrap64 (wrap64 x) = wrap64 x := by
  have h := wrap64_wrap64_add x 0
  simpa using h

lemma wrap64_wrap64_add_sub (x y z : Int) :
    wrap64 (wrap64 x + y - z) = wrap64 (x + y - z) := by
  simp only [wrap64, show (2 : Int) ^ 63 = 9223372036854775808 by norm_num,
    show (2 : Int) ^ 64 = 18446744073709551616 by norm_num]
  omega

lemma Metrics.get_add (m : Metrics) (k k' : MetricKey) (v : Int) :
    (m.add k v).get k' = if k' = k then wrap64 (m.get k + v) else m.get k' := by
  cases k <;> cases k' <;> simp [Metrics.add, Metrics.get]

lemma publishInternal_metrics (s : EngineState) (id : Int) (msg : String) :
    ((publishInternal s id msg).2).metrics = s.metrics := by
  unfold publishInternal
  cases hreg : s.registry id <;> simp

lemma publishInternal_registry (s : EngineState) (id : Int) (msg : String) :
    ((publishInternal s id msg).2).registry = s.registry := by
  unfold publishInternal
  cases hreg : s.registry id <;> simp

lemma publishInternal_none (s : EngineState) (id : Int) (msg : String)
    (h : s.registry id = none) : publishInternal s id msg = (.error ⟨404, "pubsub not found"⟩, s) := by
  unfold publishInternal
  rw [h]

lemma publishInternal_some (s : EngineState) (id : Int) (msg : String)
    (ps : PubSub) (h : s.registry id = some ps) :
    publishInternal s id msg
      = (.ok ps.subscribers.length,
         { s with dispatchLog :=
             s.dispatchLog ++ [(id, msg, ps.subscribers.map (·.id))] }) := by
  unfold publishInternal
  rw [h]

lemma incMetric_metrics (s : EngineState) (k : MetricKey) :
    (incMetric s k).metrics = s.metrics.add k 1 := by
  simp [incMetric, publishInternal_metrics]

lemma incMetric_registry (s : EngineState) (k : MetricKey) :
    (incMetric s k).registry = s.registry := by
  simp [incMetric, publishInternal_registry]

lemma incByMetric_metrics (s : EngineState) (k : MetricKey) (v : Int) :
    (incByMetric s k v).metrics = s.metrics.add k v := by
  simp [incByMetric, publishInternal_metrics]

lemma incByMetric_registry (s : EngineState) (k : MetricKey) (v : Int) :
    (incByMetric s k v).registry = s.registry := by
  simp [incByMetric, publishInternal_registry]

lemma decMetric_metrics (s : EngineState) (k : MetricKey) :
    (decMetric s k).metrics = s.metrics.add k (-1) := by
  simp [decMetric, publishInternal_metrics]

lemma decMetric_registry (s : EngineState) (k : MetricKey) :
    (decMetric s k).registry = s.registry := by
  simp [decMetric, publishInternal_registry]

lemma get_incMetric_eq (s : EngineState) (k : MetricKey) :
    (incMetric s k).metrics.get k = wrap64 (s.metrics.get k + 1) := by
  simp [incMetric_metrics, Metrics.get_add]

lemma get_incMetric_ne (s : EngineState) (k k' : MetricKey) (h : k' ≠ k) :
    (incMetric s k).metrics.get k' = s.metrics.get k' := by
  simp [incMetric_metrics, Metrics.get_add, h]

lemma get_incByMetric_ne (s : EngineState) (k k' : MetricKey) (v : Int)
    (h : k' ≠ k) :
    (incByMetric s k v).metrics.get k' = s.metrics.get k' := by
  simp [incByMetric_metrics, Metrics.get_add, h]

lemma get_incByMetric_eq (s : EngineState) (k : MetricKey) (v : Int) :
    (incByMetric s k v).metrics.get k = wrap64 (s.metrics.get k + v) := by
  simp [incByMetric_metrics, Metrics.get_add]

lemma bytesEqualLoop_self (a : List Nat) : (bytesEqualLoop a a).1 = true := by
  induction a with
  | nil => rfl
  | cons x xs ih => simp [bytesEqualLoop, ih]

lemma bytesEqual_self (a : List Nat) : (bytesEqual a a).1 = true := by
  simp [bytesEqual, bytesEqualLoop_self]

lemma bytesEqual_of_eq (a b : List Nat) (h : a = b) :
    (bytesEqual a b).1 = true := by
  subst h
  exact bytesEqual_self a

lemma swapRemove_absent (l : List Subscriber) (sid : Int)
    (h : ∀ sub ∈ l, sub.id ≠ sid) : swapRemove l sid = l := by
  unfold swapRemove
  have hnone : l.findIdx? (fun sub => sub.id = sid) = none := by
    rw [List.findIdx?_eq_none_iff]
    intro sub hmem
    simpa using h sub hmem
  rw [hnone]

lemma storeReg_same (reg : Int → Option PubSub) (k : Int) (v : PubSub)
    (h : reg k = some v) : storeReg reg k v = reg := by
  funext i
  unfold storeReg
  by_cases hik : i = k
  · subst hik
    rw [if_pos rfl, h]
  · rw [if_neg hik]

lemma get_decMetric_eq (s : EngineState) (k : MetricKey) :
    (decMetric s k).metrics.get k = wrap64 (s.metrics.get k - 1) := by
  simp [decMetric_metrics, Metrics.get_add, Int.sub_eq_add_neg]

lemma get_decMetric_ne (s : EngineState) (k k' : MetricKey) (h : k' ≠ k) :
    (decMetric s k).metrics.get k' = s.metrics.get k' := by
  simp [decMetric_metrics, Metrics.get_add, h]

lemma createOp_get_ne (cfg : Config) (kvP : Bool) (s : EngineState)
    (req : CreateReq) (newId : Int) (tokRes : Option (List Nat))
    (kvSetOk : Bool) (k : MetricKey)
    (h1 : k ≠ .topics) (h2 : k ≠ .activeTopics) :
    (createOp cfg kvP s req newId tokRes kvSetOk).2.metrics.get k
      = s.metrics.get k := by
  by_cases hapi : req.apiAccessToken ≠ cfg.apiAccessToken
  · simp [createOp, hapi]
  · cases tokRes with
    | none =>
        simp only [createOp, if_neg hapi]
        rw [get_incMetric_ne _ _ _ h1, get_incMetric_ne _ _ _ h2]
    | some token =>
        by_cases hp1 : (req.persist : Prop) ∧ ¬kvP
        · simp only [createOp, if_neg hapi, if_pos hp1]
          rw [get_incMetric_ne _ _ _ h1, get_incMetric_ne _ _ _ h2]
        · by_cases hp2 : (req.persist : Prop) ∧ ¬kvSetOk
          · simp only [createOp, if_neg hapi, if_neg hp1, if_pos hp2]
            rw [get_incMetric_ne _ _ _ h1, get_incMetric_ne _ _ _ h2]
          · simp only [createOp, if_neg hapi, if_neg hp1, if_neg hp2]
            rw [get_incMetric_ne _ _ _ h1, get_incMetric_ne _ _ _ h2]

lemma deleteOp_get_ne (cfg : Config) (kvP : Bool) (s : EngineState)
    (req : DeleteReq) (kvDelOk : Bool) (k : MetricKey)
    (h1 : k ≠ .activeTopics) :
    (deleteOp cfg kvP s req kvDelOk).2.metrics.get k = s.metrics.get k := by
  by_cases hapi : req.apiAccessToken ≠ cfg.apiAccessToken
  · simp [deleteOp, hapi]
  · rcases hreg : s.registry req.id with _ | ps
    · simp [deleteOp, hapi, hreg]
    · by_cases hst : ps.static
      · simp [deleteOp, hapi, hreg, hst]
      · by_cases hkv : kvP ∧ ¬kvDelOk
        · simp [deleteOp, hapi, hreg, hst, hkv]
        · simp only [deleteOp, if_neg hapi, hreg, if_neg hkv, if_neg hst]
          rw [get_decMetric_ne _ _ _ h1]

lemma publishOp_get_ne (cfg : Config) (s : EngineState) (req : PublishReq)
    (newEvId : Int) (k : MetricKey)
    (h1 : k ≠ .messageReceived) (h2 : k ≠ .messageSent) :
    (publishOp cfg s req newEvId).2.metrics.get k = s.metrics.get k := by
  by_cases hapi : req.apiAccessToken ≠ cfg.apiAccessToken
  · simp [publishOp, hapi]
  · rcases hreg : s.registry req.pubSubID with _ | ps
    · simp [publishOp, hapi, publishInternal_none s req.pubSubID req.message hreg]
    · simp only [publishOp, if_neg hapi,
        publishInternal_some s req.pubSubID req.message ps hreg]
      rw [get_incMetric_ne _ _ _ h1, get_incByMetric_ne _ _ _ _ h2]

lemma subscribeOp_get_activeSubscribers (cfg : Config) (s : EngineState)
    (req : SubscribeReq) (newId : Int) :
    (subscribeOp cfg s req newId).2.metrics.get .activeSubscribers
      = if isOkE (subscribeOp cfg s req newId).1 then
          wrap64 (s.metrics.get .activeSubscribers + 1)
        else s.metrics.get .activeSubscribers := by
  rcases hreg : s.registry req.pubSubID with _ | ps
  · simp [subscribeOp, hreg, isOkE]
  · by_cases htok : (bytesEqual ps.token req.token).1
    · simp only [subscribeOp, hreg, htok, Bool.not_true, Bool.false_eq_true,
        if_false]
      rw [get_incMetric_eq, get_incMetric_ne _ _ _ (by decide)]
      simp [isOkE]
    · simp [subscribeOp, hreg, htok, isOkE]

lemma unsubscribeOp_get_activeSubscribers (cfg : Config) (s : EngineState)
    (req : UnsubscribeReq) :
    (unsubscribeOp cfg s req).2.metrics.get .activeSubscribers
      = if isOkE (unsubscribeOp cfg s req).1 then
          wrap64 (s.metrics.get .activeSubscribers - 1)
        else s.metrics.get .activeSubscribers := by
  rcases hreg : s.registry req.pubSubID with _ | ps
  · simp [unsubscribeOp, hreg, isOkE]
  · by_cases htok : (bytesEqual ps.token req.token).1
    · simp only [unsubscribeOp, hreg, htok, Bool.not_true, Bool.false_eq_true,
        if_false]
      rw [get_decMetric_eq]
      simp [isOkE]
    · simp [unsubscribeOp, hreg, htok, isOkE]

/-- Effect of one engine call on the `active_subscribers` counter: a
successful `Subscribe` adds 1, a successful `Unsubscribe` subtracts 1,
everything else — `Create`, `Delete`, `Publish`, failed calls — leaves
it unchanged. -/
lemma stepOp_activeSubscribers (cfg : Config) (kvP : Bool)
    (s : EngineState) (o : Op) :
    (stepOp cfg kvP s o).metrics.get .activeSubscribers
      = if subSuccess cfg s o then
          wrap64 (s.metrics.get .activeSubscribers + 1)
        else if unsubSuccess cfg s o then
          wrap64 (s.metrics.get .activeSubscribers - 1)
        else s.metrics.get .activeSubscribers := by
  cases o with
  | create req newId tokRes kvSetOk =>
      simp only [stepOp, subSuccess, unsubSuccess, Bool.false_eq_true,
        if_false]
      exact createOp_get_ne cfg kvP s req newId tokRes kvSetOk _
        (by decide) (by decide)
  | delete req kvDelOk =>
      simp only [stepOp, subSuccess, unsubSuccess, Bool.false_eq_true,
        if_false]
      exact deleteOp_get_ne cfg kvP s req kvDelOk _ (by decide)
  | publish req newEvId =>
      simp only [stepOp, subSuccess, unsubSuccess, Bool.false_eq_true,
        if_false]
      exact publishOp_get_ne cfg s req newEvId _ (by decide) (by decide)
  | subscribe req newId =>
      simp only [stepOp, subSuccess, unsubSuccess]
      exact subscribeOp_get_activeSubscribers cfg s req newId
  | unsubscribe req =>
      simp only [stepOp, subSuccess, unsubSuccess, Bool.false_eq_true,
        if_false]
      exact unsubscribeOp_get_activeSubscribers cfg s req

lemma subSuccess_unsubSuccess_exclusive (cfg : Config) (s : EngineState)
    (o : Op) : ¬(subSuccess cfg s o = true ∧ unsubSuccess cfg s o = true) := by
  cases o <;> simp [subSuccess, unsubSuccess]

lemma digits62Aux_zero (fuel : Nat) : digits62Aux fuel 0 = [] := by
  cases fuel <;> rfl

/-- Digit-count sandwich for the base-62 rendering: when `0 < n ≤ fuel`
the digit list `d` of `n` satisfies `62 ^ (|d| - 1) ≤ n < 62 ^ |d|`. -/
lemma digits62Aux_sandwich :
    ∀ fuel n, 0 < n → n ≤ fuel →
      62 ^ ((digits62Aux fuel n).length - 1) ≤ n
        ∧ n < 62 ^ (digits62Aux fuel n).length := by
  intro fuel
  induction fuel with
  | zero => intro n hn hle; omega
  | succ fuel ih =>
      intro n hn hle
      obtain ⟨m, rfl⟩ : ∃ m, n = m + 1 := ⟨n - 1, by omega⟩
      show 62 ^ ((((m + 1) % 62) :: digits62Aux fuel ((m + 1) / 62)).length - 1)
            ≤ m + 1
          ∧ m + 1
            < 62 ^ (((m + 1) % 62) :: digits62Aux fuel ((m + 1) / 62)).length
      by_cases hq : (m + 1) / 62 = 0
      · have hlt : m + 1 < 62 := by
          rcases Nat.div_eq_zero_iff (by norm_num : 0 < 62) |>.1 hq with h
          exact h
        rw [hq, digits62Aux_zero]
        simpa using hlt
      · have hq1 : 1 ≤ (m + 1) / 62 := Nat.one_le_iff_ne_zero.2 hq
        have hqlt : (m + 1) / 62 < m + 1 :=
          Nat.div_lt_self (by omega) (by norm_num)
        have hqle : (m + 1) / 62 ≤ fuel := by omega
        have hrec := ih ((m + 1) / 62) (by omega) hqle
        set L := (digits62Aux fuel ((m + 1) / 62)).length with hL
        have hL1 : 1 ≤ L := by
          rcases hfuel : fuel with _ | f
          · omega
          · obtain ⟨p, hp⟩ : ∃ p, (m + 1) / 62 = p + 1 := ⟨(m + 1) / 62 - 1, by omega⟩
            rw [hL, hfuel, hp]
            simp [digits62Aux]
        have hpowL : 62 ^ L = 62 ^ (L - 1) * 62 := by
          conv_lhs => rw [show L = (L - 1) + 1 by omega]
          rw [pow_succ]
        have hdiv1 : (m + 1) / 62 * 62 ≤ m + 1 := Nat.div_mul_le_self _ _
        have hdiv2 : m + 1 < ((m + 1) / 62 + 1) * 62 := by omega
        have hpowL1 : 62 ^ (L + 1) = 62 ^ L * 62 := pow_succ 62 L
        constructor
        · show 62 ^ (L + 1 - 1) ≤ m + 1
          have : L + 1 - 1 = L := by omega
          rw [this, hpowL]
          calc 62 ^ (L - 1) * 62 ≤ (m + 1) / 62 * 62 :=
                Nat.mul_le_mul_right _ hrec.1
            _ ≤ m + 1 := hdiv1
        · show m + 1 < 62 ^ (L + 1)
          rw [hpowL1]
          calc m + 1 < ((m + 1) / 62 + 1) * 62 := hdiv2
            _ ≤ 62 ^ L * 62 := Nat.mul_le_mul_right _ (by omega)

lemma asString_length (xs : List Char) : (List.asString xs).length = xs.length :=
  rfl

lemma text62_length_ge (n : Nat) (h : 62 ^ 63 ≤ n) :
    64 ≤ (text62 n).length := by
  have hn : 0 < n := lt_of_lt_of_le (Nat.pos_pow_of_pos 63 (by norm_num)) h
  have hsand := digits62Aux_sandwich n n hn le_rfl
  unfold text62
  rw [if_neg (by omega)]
  rw [asString_length, List.length_map, List.length_reverse]
  by_contra hcon
  push_neg at hcon
  have hle : (digits62Aux n n).length ≤ 63 := by omega
  have : 62 ^ (digits62Aux n n).length ≤ 62 ^ 63 :=
    Nat.pow_le_pow_right (by norm_num) hle
  omega

lemma staticSeed_metrics (cfg : Config) (s : EngineState) :
    (staticSeed cfg s).metrics = s.metrics := rfl

lemma token_length_lt_one_iff (l : List Nat) : l.length < 1 ↔ l = [] := by
  constructor
  · intro h
    exact List.eq_nil_of_length_eq_zero (by omega)
  · intro h
    simp [h]

/-- Success of the static-registration loop is exactly the absence of
an entry with id 0 or an empty token. -/
lemma registerStaticLoop_ok_iff :
    ∀ (l : List StaticPubSubConfig) (s : EngineState),
      isOkE (registerStaticLoop s l) = true
        ↔ ∀ ps ∈ l, ps.id ≠ 0 ∧ ps.token ≠ [] := by
  intro l
  induction l with
  | nil => intro s; simp [registerStaticLoop, isOkE]
  | cons p rest ih =>
      intro s
      by_cases h0 : p.id = 0
      · simp [registerStaticLoop, h0, isOkE]
      · by_cases ht : p.token.length < 1
        · have hnil : p.token = [] := (token_length_lt_one_iff _).1 ht
          simp [registerStaticLoop, h0, if_pos ht, isOkE, hnil]
        · have htne : p.token ≠ [] := by
            intro hh
            rw [hh] at ht
            simp at ht
          simp [registerStaticLoop, h0, if_neg ht, ih, htne]

/-- State shape after a successful static-registration loop: metrics
and log untouched, ids not in the list untouched, every listed id
mapped to a static topic with no subscribers. -/
lemma registerStaticLoop_ok_state :
    ∀ (l : List StaticPubSubConfig) (s s' : EngineState),
      registerStaticLoop s l = .ok s' →
      s'.metrics = s.metrics ∧ s'.dispatchLog = s.dispatchLog
        ∧ (∀ i : Int, (∀ ps ∈ l, ps.id ≠ i) → s'.registry i = s.registry i)
        ∧ (∀ ps ∈ l, ∃ t : PubSub,
            s'.registry ps.id = some t ∧ t.static = true ∧ t.subscribers = []) := by
  intro l
  induction l with
  | nil =>
      intro s s' h
      cases h
      exact ⟨rfl, rfl, fun _ _ => rfl, by simp⟩
  | cons p rest ih =>
      intro s s' h
      rw [registerStaticLoop] at h
      by_cases h0 : p.id = 0
      · rw [if_pos h0] at h; cases h
      · rw [if_neg h0] at h
        by_cases ht : p.token.length < 1
        · rw [if_pos ht] at h; cases h
        · rw [if_neg ht] at h
          obtain ⟨hm, hl, hreg, hmem⟩ := ih _ _ h
          refine ⟨hm, hl, ?_, ?_⟩
          · intro i hni
            rw [hreg i (fun ps hps => hni ps (List.mem_cons_of_mem p hps))]
            have hpc : p.id ≠ i := hni p (List.mem_cons_self p rest)
            simp [storeReg, Ne.symm hpc]
          · intro ps hps
            rcases List.mem_cons.1 hps with heq | hrest
            · subst heq
              by_cases hdup : ∃ q ∈ rest, q.id = ps.id
              · obtain ⟨q, hq, hqid⟩ := hdup
                obtain ⟨t, htt⟩ := hmem q hq
                exact ⟨t, hqid ▸ htt⟩
              · push_neg at hdup
                refine ⟨⟨ps.id, true, [], ps.token⟩, ?_, rfl, rfl⟩
                rw [hreg ps.id (fun q hq => hdup q hq)]
                simp [storeReg]
            · exact hmem ps hrest

/-! ### Claims -/

/-- C1.  The spec requires `active_topics` (and `topics`) to move only
on successful `Create`/`Delete` calls, and in particular that a
`Create` returning an error leaves both counters unchanged.  The code
registers `defer c.inc(metricTopics); defer c.inc(metricActiveTopics)`
before its error returns, so a `Create` with a valid api token that
fails — here with 400 because persistence was requested without a
recorder — still increments both counters while storing no topic.
Evaluated at the startup state of `exCfg` (counters at 1 after the
reserved topic). -/
theorem claim_C1_create_error_still_increments :
    (createOp exCfg false exInit ⟨[97], true⟩ 5 (some [1, 2, 3]) true).1
        = .error ⟨400, "Persistent store is not available"⟩
      ∧ (createOp exCfg false exInit ⟨[97], true⟩ 5 (some [1, 2, 3]) true).2.registry 5
        = none
      ∧ exInit.metrics.activeTopics = 1
      ∧ (createOp exCfg false exInit ⟨[97], true⟩ 5 (some [1, 2, 3]) true).2.metrics.activeTopics
        = 2
      ∧ exInit.metrics.topics = 1
      ∧ (createOp exCfg false exInit ⟨[97], true⟩ 5 (some [1, 2, 3]) true).2.metrics.topics
        = 2 := by
  refine ⟨by decide, by decide, by decide, by decide, by decide, by decide⟩

/-- C2 (counterexample).  Starting from the startup state of `exCfg`,
run: create topic 5, subscribe subscriber 7 to it, delete topic 5.
One `Subscribe` succeeded, no `Unsubscribe` succeeded, and the delete
removed one subscriber, so the claimed invariant demands
`active_subscribers = 1 − (0 + 1) = 0`; the code leaves the counter at
1 because `Delete` never decrements `active_subscribers`. -/
theorem claim_C2_counterexample :
    countSub exCfg false exInit exTrace = 1
      ∧ countUnsub exCfg false exInit exTrace = 0
      ∧ countDelRemoved exCfg false exInit exTrace = 1
      ∧ (runOps exCfg false exInit exTrace).metrics.activeSubscribers = 1
      ∧ (runOps exCfg false exInit exTrace).metrics.activeSubscribers
          ≠ (countSub exCfg false exInit exTrace : Int)
            - ((countUnsub exCfg false exInit exTrace : Int)
              + (countDelRemoved exCfg false exInit exTrace : Int)) := by
  refine ⟨by decide, by decide, by decide, by decide, by decide⟩

/-- C2 (amended).  Over every trace of engine calls,
`active_subscribers` equals the number of successful `Subscribe` calls
minus the number of successful `Unsubscribe` calls (wrapped into the
int64 range); subscribers removed by `Delete` do not enter the balance
because `Delete` never touches `active_subscribers`. -/
theorem claim_C2_active_subscribers_balance (cfg : Config) (kvP : Bool)
    (ops : List Op) (s : EngineState)
    (h : s.metrics.get .activeSubscribers
      = wrap64 (s.metrics.get .activeSubscribers)) :
    (runOps cfg kvP s ops).metrics.get .activeSubscribers
      = wrap64 (s.metrics.get .activeSubscribers
          + (countSub cfg kvP s ops : Int)
          - (countUnsub cfg kvP s ops : Int)) := by
  induction ops generalizing s with
  | nil =>
      simpa [runOps, countSub, countUnsub] using h
  | cons o ops ih =>
      have hstep := stepOp_activeSubscribers cfg kvP s o
      have hrange : (stepOp cfg kvP s o).metrics.get .activeSubscribers
          = wrap64 ((stepOp cfg kvP s o).metrics.get .activeSubscribers) := by
        rw [hstep]
        split_ifs with h1 h2
        · rw [wrap64_idem]
        · rw [wrap64_idem]
        · exact h
      have ih' := ih _ hrange
      simp only [runOps, countSub, countUnsub]
      rw [ih', hstep]
      by_cases h1 : subSuccess cfg s o
      · have h2 : unsubSuccess cfg s o = false := by
          rcases hb : unsubSuccess cfg s o
          · rfl
          · exact absurd ⟨h1, hb⟩ (subSuccess_unsubSuccess_exclusive cfg s o)
        rw [if_pos h1, if_pos h1, h2]
        simp only [Bool.false_eq_true, if_false]
        rw [wrap64_wrap64_add_sub]
        congr 1
        push_cast
        ring
      · have h1' : subSuccess cfg s o = false := by
          rcases hb : subSuccess cfg s o
          · rfl
          · exact absurd hb h1
        rw [h1']
        simp only [Bool.false_eq_true, if_false]
        by_cases h2 : unsubSuccess cfg s o
        · rw [if_pos h2, if_pos h2, wrap64_wrap64_add_sub]
          congr 1
          push_cast
          ring
        · have h2' : unsubSuccess cfg s o = false := by
            rcases hb : unsubSuccess cfg s o
            · rfl
            · exact absurd hb h2
          rw [h2']
          simp only [Bool.false_eq_true, if_false]
          congr 1
          push_cast
          ring

/-- C2 (witness).  The amended balance evaluated on the concrete trace
of the counterexample: one successful subscribe, no successful
unsubscribe, so the counter ends at `wrap64 (0 + 1 - 0)`. -/
theorem claim_C2_active_subscribers_balance_witness :
    (runOps exCfg false exInit exTrace).metrics.get .activeSubscribers
      = wrap64 (exInit.metrics.get .activeSubscribers
          + (countSub exCfg false exInit exTrace : Int)
          - (countUnsub exCfg false exInit exTrace : Int)) :=
  claim_C2_active_subscribers_balance exCfg false exTrace exInit (by decide)

/-- C9.  The spec requires Subscribe and Unsubscribe to compare the
presented token against the topic token in constant time.  The code
compares with `bytes.Equal`, which stops at the first differing byte:
against the token `[1,2,3,4]`, the candidate differing in the first
byte costs 1 byte comparison while the candidate differing in the last
byte costs 4, so the running time depends on the position of the first
differing byte. -/
theorem claim_C9_bytes_equal_not_constant_time :
    (bytesEqual [1, 2, 3, 4] [9, 2, 3, 4]).1 = false
      ∧ (bytesEqual [1, 2, 3, 4] [1, 2, 3, 9]).1 = false
      ∧ [(9 : Nat), 2, 3, 4].length = [(1 : Nat), 2, 3, 9].length
      ∧ (bytesEqual [1, 2, 3, 4] [9, 2, 3, 4]).2 = 1
      ∧ (bytesEqual [1, 2, 3, 4] [1, 2, 3, 9]).2 = 4 := by
  refine ⟨by decide, by decide, by decide, by decide, by decide⟩

/-- C3.  A `Publish` with the correct api token on an existing topic
whose subscriber snapshot has length `n` succeeds, increments
`message_received` by exactly 1 and `message_sent` by exactly `n`
(attempted deliveries) and touches no other counter; a `Publish` that
returns an error (401 token mismatch or 404 absent topic) leaves the
whole state — both counters included — unchanged. -/
theorem claim_C3_publish_counters (cfg : Config) (s : EngineState)
    (req : PublishReq) (evId : Int) :
    (∀ ps, req.apiAccessToken = cfg.apiAccessToken →
        s.registry req.pubSubID = some ps →
        (publishOp cfg s req evId).1 = .ok ⟨evId⟩
          ∧ (publishOp cfg s req evId).2.metrics.get .messageReceived
              = wrap64 (s.metrics.get .messageReceived + 1)
          ∧ (publishOp cfg s req evId).2.metrics.get .messageSent
              = wrap64 (s.metrics.get .messageSent
                  + (ps.subscribers.length : Int))
          ∧ ∀ k, k ≠ MetricKey.messageReceived → k ≠ MetricKey.messageSent →
              (publishOp cfg s req evId).2.metrics.get k = s.metrics.get k)
      ∧ (∀ e, (publishOp cfg s req evId).1 = .error e →
          (publishOp cfg s req evId).2 = s) := by
  constructor
  · intro ps hapi hreg
    have hne : ¬(req.apiAccessToken ≠ cfg.apiAccessToken) := by simp [hapi]
    refine ⟨?_, ?_, ?_, ?_⟩
    · simp [publishOp, if_neg hne,
        publishInternal_some s req.pubSubID req.message ps hreg]
    · simp only [publishOp, if_neg hne,
        publishInternal_some s req.pubSubID req.message ps hreg]
      rw [get_incMetric_eq, get_incByMetric_ne _ _ _ _ (by decide)]
    · simp only [publishOp, if_neg hne,
        publishInternal_some s req.pubSubID req.message ps hreg]
      rw [get_incMetric_ne _ _ _ (by decide), get_incByMetric_eq]
      rfl
    · intro k hk1 hk2
      simp only [publishOp, if_neg hne,
        publishInternal_some s req.pubSubID req.message ps hreg]
      rw [get_incMetric_ne _ _ _ hk1, get_incByMetric_ne _ _ _ _ hk2]
  · intro e herr
    by_cases hapi : req.apiAccessToken ≠ cfg.apiAccessToken
    · simp [publishOp, hapi]
    · rcases hreg : s.registry req.pubSubID with _ | ps
      · simp [publishOp, hapi,
          publishInternal_none s req.pubSubID req.message hreg]
      · exfalso
        rw [publishOp, if_neg hapi,
          publishInternal_some s req.pubSubID req.message ps hreg] at herr
        simp at herr

/-- C3 (witness).  Publishing with the correct api token to the topic
`exPS` of `exState` (two subscribers, counters at zero): the publish
succeeds, `message_received` ends at `wrap64 (0 + 1)` and
`message_sent` at `wrap64 (0 + 2)`. -/
theorem claim_C3_publish_counters_witness :
    (publishOp exCfg exState ⟨[97], 5, "hi"⟩ 9).1 = .ok ⟨9⟩
      ∧ (publishOp exCfg exState ⟨[97], 5, "hi"⟩ 9).2.metrics.get .messageReceived
          = wrap64 (exState.metrics.get .messageReceived + 1)
      ∧ (publishOp exCfg exState ⟨[97], 5, "hi"⟩ 9).2.metrics.get .messageSent
          = wrap64 (exState.metrics.get .messageSent
              + (exPS.subscribers.length : Int)) := by
  have h := (claim_C3_publish_counters exCfg exState ⟨[97], 5, "hi"⟩ 9).1
    exPS rfl (by decide)
  exact ⟨h.1, h.2.1, h.2.2.1⟩

/-- C4.  With the correct api token: deleting an absent topic returns
success and leaves the state — registry and every counter — unchanged;
deleting a static topic fails with code 400 and message
"static pubsubs can\x27t be deleted" and likewise changes nothing. -/
theorem claim_C4_delete_absent_noop_static_400 (cfg : Config) (kvP : Bool)
    (s : EngineState) (req : DeleteReq) (kvDelOk : Bool)
    (hapi : req.apiAccessToken = cfg.apiAccessToken) :
    (s.registry req.id = none →
        deleteOp cfg kvP s req kvDelOk = (.ok (), s))
      ∧ (∀ ps, s.registry req.id = some ps → ps.static = true →
          deleteOp cfg kvP s req kvDelOk
            = (.error ⟨400, "static pubsubs can\x27t be deleted"⟩, s)) := by
  have hne : ¬(req.apiAccessToken ≠ cfg.apiAccessToken) := by simp [hapi]
  constructor
  · intro h
    simp [deleteOp, if_neg hne, h]
  · intro ps h hst
    simp [deleteOp, if_neg hne, h, hst]

/-- C4 (witness).  In the startup state of `exCfg`: deleting the absent
topic 42 is a no-op success, and deleting the reserved static topic 0
fails with the 400 static message, in both cases returning the state
unchanged. -/
theorem claim_C4_delete_absent_noop_static_400_witness :
    deleteOp exCfg false exInit ⟨[97], 42⟩ true = (.ok (), exInit)
      ∧ deleteOp exCfg false exInit ⟨[97], 0⟩ true
          = (.error ⟨400, "static pubsubs can\x27t be deleted"⟩, exInit) := by
  have h := claim_C4_delete_absent_noop_static_400 exCfg false exInit
    ⟨[97], 42⟩ true rfl
  have h0 := claim_C4_delete_absent_noop_static_400 exCfg false exInit
    ⟨[97], 0⟩ true rfl
  exact ⟨h.1 (by decide), h0.2 ⟨0, true, [], [109]⟩ (by decide) rfl⟩

/-- C10.  An `Unsubscribe` on an existing topic with the matching token
but a subscriber id absent from the subscriber list returns success,
leaves the registry (hence the subscriber list) unchanged, and still
decrements `active_subscribers` by 1 — so repeating the call keeps
decrementing while never removing anything. -/
theorem claim_C10_unsubscribe_absent_still_decrements (cfg : Config)
    (s : EngineState) (req : UnsubscribeReq) (ps : PubSub)
    (hreg : s.registry req.pubSubID = some ps)
    (htok : ps.token = req.token)
    (habs : ∀ sub ∈ ps.subscribers, sub.id ≠ req.id) :
    (unsubscribeOp cfg s req).1 = .ok ()
      ∧ (unsubscribeOp cfg s req).2.registry = s.registry
      ∧ (unsubscribeOp cfg s req).2.metrics.get .activeSubscribers
          = wrap64 (s.metrics.get .activeSubscribers - 1)
      ∧ ∀ k, k ≠ MetricKey.activeSubscribers →
          (unsubscribeOp cfg s req).2.metrics.get k = s.metrics.get k := by
  have hbe : (bytesEqual ps.token req.token).1 = true :=
    bytesEqual_of_eq _ _ htok
  have hps1 : ({ ps with subscribers := swapRemove ps.subscribers req.id }
      : PubSub) = ps := by
    rw [swapRemove_absent ps.subscribers req.id habs]
  have hsr : storeReg s.registry req.pubSubID
      { ps with subscribers := swapRemove ps.subscribers req.id }
      = s.registry := by
    rw [hps1]
    exact storeReg_same s.registry req.pubSubID ps hreg
  refine ⟨?_, ?_, ?_, ?_⟩
  · simp [unsubscribeOp, hreg, hbe]
  · simp only [unsubscribeOp, hreg, hbe, Bool.not_true, Bool.false_eq_true,
      if_false]
    rw [decMetric_registry]
    exact hsr
  · simp only [unsubscribeOp, hreg, hbe, Bool.not_true, Bool.false_eq_true,
      if_false]
    rw [get_decMetric_eq]
  · intro k hk
    simp only [unsubscribeOp, hreg, hbe, Bool.not_true, Bool.false_eq_true,
      if_false]
    rw [get_decMetric_ne _ _ _ hk]

/-- C10 (witness).  Unsubscribing the absent subscriber id 99 from the
topic `exPS` of `exState` (subscribers 7 and 8): the call succeeds and
`active_subscribers` ends at `wrap64 (0 - 1)`. -/
theorem claim_C10_unsubscribe_absent_still_decrements_witness :
    (unsubscribeOp exCfg exState ⟨5, 99, [1, 2, 3]⟩).1 = .ok ()
      ∧ (unsubscribeOp exCfg exState ⟨5, 99, [1, 2, 3]⟩).2.metrics.get
            .activeSubscribers
          = wrap64 (exState.metrics.get .activeSubscribers - 1) := by
  have h := claim_C10_unsubscribe_absent_still_decrements exCfg exState
    ⟨5, 99, [1, 2, 3]⟩ exPS (by decide) (by decide) (by decide)
  exact ⟨h.1, h.2.2.1⟩

/-- C5.  Every engine-side counter mutation (`inc`, `incBy`, `dec`)
first hands the JSON message `{"val": <delta>, "metric": "<name>"}` to
the internal publish primitive on reserved topic 0 and then mutates the
counter.  The primitive itself mutates no counter (so the self-publish
cannot recurse), the dispatch of the message is observable in the log
exactly when topic 0 exists, and a publish error (topic 0 absent) is
swallowed: the counter is mutated all the same. -/
theorem claim_C5_metric_mutation_self_publishes (s : EngineState)
    (k : MetricKey) (val : Int) :
    (∀ id msg, ((publishInternal s id msg).2).metrics = s.metrics)
      ∧ (incMetric s k).metrics = s.metrics.add k 1
      ∧ (incByMetric s k val).metrics = s.metrics.add k val
      ∧ (decMetric s k).metrics = s.metrics.add k (-1)
      ∧ (∀ ps, s.registry 0 = some ps →
          (incMetric s k).dispatchLog
              = s.dispatchLog ++ [(0, metricMsg 1 k, ps.subscribers.map (·.id))]
            ∧ (incByMetric s k val).dispatchLog
              = s.dispatchLog
                  ++ [(0, metricMsg val k, ps.subscribers.map (·.id))]
            ∧ (decMetric s k).dispatchLog
              = s.dispatchLog
                  ++ [(0, metricMsg (-1) k, ps.subscribers.map (·.id))])
      ∧ (s.registry 0 = none →
          (incMetric s k).dispatchLog = s.dispatchLog
            ∧ (incByMetric s k val).dispatchLog = s.dispatchLog
            ∧ (decMetric s k).dispatchLog = s.dispatchLog) := by
  refine ⟨fun id msg => publishInternal_metrics s id msg,
    incMetric_metrics s k, incByMetric_metrics s k val, decMetric_metrics s k,
    ?_, ?_⟩
  · intro ps h
    refine ⟨?_, ?_, ?_⟩
    · simp [incMetric, publishInternal_some s 0 (metricMsg 1 k) ps h]
    · simp [incByMetric, publishInternal_some s 0 (metricMsg val k) ps h]
    · simp [decMetric, publishInternal_some s 0 (metricMsg (-1) k) ps h]
  · intro h
    refine ⟨?_, ?_, ?_⟩
    · simp [incMetric, publishInternal_none s 0 (metricMsg 1 k) h]
    · simp [incByMetric, publishInternal_none s 0 (metricMsg val k) h]
    · simp [decMetric, publishInternal_none s 0 (metricMsg (-1) k) h]

/-- C5 (witness).  In the startup state of `exCfg` topic 0 exists with
no subscribers, so `inc topics` appends the dispatch of
`{"val": 1, "metric": "topics"}` to topic 0; in `exState` topic 0 is
absent, so the publish error is swallowed and `inc topics` leaves the
log unchanged while both states get their counter bumped. -/
theorem claim_C5_metric_mutation_self_publishes_witness :
    (incMetric exInit .topics).metrics = exInit.metrics.add .topics 1
      ∧ (incMetric exInit .topics).dispatchLog
          = exInit.dispatchLog ++ [(0, metricMsg 1 .topics, [])]
      ∧ (incMetric exState .topics).metrics = exState.metrics.add .topics 1
      ∧ (incMetric exState .topics).dispatchLog = exState.dispatchLog := by
  have h1 := claim_C5_metric_mutation_self_publishes exInit .topics 1
  have h2 := claim_C5_metric_mutation_self_publishes exState .topics 1
  have hlog := (h1.2.2.2.2.1 ⟨0, true, [], [109]⟩ (by decide)).1
  exact ⟨h1.2.1, hlog, h2.2.1, (h2.2.2.2.2.2 (by decide)).1⟩

/-- C6 (counterexample).  The all-zero 64-byte input is a possible
output of the random source, its base-62 text is `"0"` (one character),
and the Go slice `Text(62)[:64]` is out of bounds: the generator does
not return a 64-character token on every 64-byte input. -/
theorem claim_C6_counterexample :
    (List.replicate 64 (0 : Nat)).length = 64
      ∧ generateRandom64 (List.replicate 64 0) = none
      ∧ ¬∃ t, generateRandom64 (List.replicate 64 0) = some t
          ∧ t.length = 64 := by
  refine ⟨by decide, by decide, ?_⟩
  rintro ⟨t, ht, -⟩
  rw [show generateRandom64 (List.replicate 64 0) = none from by decide] at ht
  cases ht

/-- C6 (amended).  For every byte input whose big-endian value is at
least `62 ^ 63` — in particular whenever any of the first 17 bytes of
the 64 is non-zero — the base-62 text has at least 64 characters, the
slice is in bounds, and the generator returns a token of exactly 64
characters.  Inputs below that bound make the slice panic. -/
theorem claim_C6_token_length (bs : List Nat)
    (h : 62 ^ 63 ≤ bytesToNat bs) :
    ∃ t, generateRandom64 bs = some t ∧ t.length = 64 := by
  have hlen := text62_length_ge (bytesToNat bs) h
  refine ⟨((text62 (bytesToNat bs)).toList.take 64).asString, ?_, ?_⟩
  · unfold generateRandom64
    rw [if_pos hlen]
  · rw [asString_length, List.length_take]
    have : (text62 (bytesToNat bs)).toList.length
        = (text62 (bytesToNat bs)).length := rfl
    omega

/-- C6 (witness).  The input `0x01` followed by 63 zero bytes has value
`256 ^ 63 ≥ 62 ^ 63`, so the generator yields a 64-character token. -/
theorem claim_C6_token_length_witness :
    ∃ t, generateRandom64 exBigBytes = some t ∧ t.length = 64 :=
  claim_C6_token_length exBigBytes (by decide)

/-- C7 (counterexample).  The claim says startup registration aborts
iff some static entry has an id that is not ≥ 1 or an empty token.  The
code only rejects `id == 0`: under `exNegCfg`, whose single entry has
id `-1` (not ≥ 1) and a non-empty token, registration succeeds. -/
theorem claim_C7_counterexample :
    isOkE (registerStaticPubSubs exNegCfg emptyState) = true
      ∧ ¬∀ ps ∈ exNegCfg.staticPubSubs, 1 ≤ ps.id ∧ ps.token ≠ [] := by
  refine ⟨by decide, ?_⟩
  intro hall
  have h := (hall ⟨-1, "x", [116]⟩ (by decide)).1
  exact absurd h (by decide)

/-- C7 (amended).  Startup registration of static topics aborts iff
some configured entry has id equal to 0 (negative ids are accepted) or
an empty token; on success the reserved topic 0 carries the metrics
access token, every configured id maps to a static topic, and
`topics`, `active_topics` and `static_topics` each grow by the number
of configured entries plus one, while the other counters keep their
values. -/
theorem claim_C7_static_registration (cfg : Config) (s : EngineState) :
    (isOkE (registerStaticPubSubs cfg s) = true
        ↔ ∀ ps ∈ cfg.staticPubSubs, ps.id ≠ 0 ∧ ps.token ≠ [])
      ∧ ∀ s', registerStaticPubSubs cfg s = .ok s' →
          s'.registry 0 = some ⟨0, true, [], cfg.metricsAccessToken⟩
            ∧ (∀ ps ∈ cfg.staticPubSubs, ∃ t : PubSub,
                s'.registry ps.id = some t ∧ t.static = true)
            ∧ s'.metrics.get .topics
                = wrap64 (s.metrics.get .topics
                    + Int.ofNat (cfg.staticPubSubs.length + 1))
            ∧ s'.metrics.get .activeTopics
                = wrap64 (s.metrics.get .activeTopics
                    + Int.ofNat (cfg.staticPubSubs.length + 1))
            ∧ s'.metrics.get .staticTopics
                = wrap64 (s.metrics.get .staticTopics
                    + Int.ofNat (cfg.staticPubSubs.length + 1))
            ∧ ∀ k, k ≠ MetricKey.topics → k ≠ MetricKey.activeTopics →
                k ≠ MetricKey.staticTopics →
                s'.metrics.get k = s.metrics.get k := by
  constructor
  · unfold registerStaticPubSubs
    rcases hloop : registerStaticLoop (staticSeed cfg s) cfg.staticPubSubs
      with e | s1
    · have hiff := registerStaticLoop_ok_iff cfg.staticPubSubs
        (staticSeed cfg s)
      rw [hloop] at hiff
      simpa [isOkE] using hiff
    · have hiff := registerStaticLoop_ok_iff cfg.staticPubSubs
        (staticSeed cfg s)
      rw [hloop] at hiff
      simpa [isOkE] using hiff
  · intro s' h
    unfold registerStaticPubSubs at h
    rcases hloop : registerStaticLoop (staticSeed cfg s) cfg.staticPubSubs
      with e | s1
    · rw [hloop] at h
      cases h
    · rw [hloop] at h
      have hok : ∀ ps ∈ cfg.staticPubSubs, ps.id ≠ 0 ∧ ps.token ≠ [] := by
        have hiff := registerStaticLoop_ok_iff cfg.staticPubSubs
          (staticSeed cfg s)
        rw [hloop] at hiff
        exact hiff.1 rfl
      obtain ⟨hm, _, hreg, hmem⟩ :=
        registerStaticLoop_ok_state cfg.staticPubSubs _ s1 hloop
      injection h with h
      subst h
      have hregall : (incByMetric (incByMetric (incByMetric s1 .topics
          (Int.ofNat (cfg.staticPubSubs.length + 1))) .activeTopics
          (Int.ofNat (cfg.staticPubSubs.length + 1))) .staticTopics
          (Int.ofNat (cfg.staticPubSubs.length + 1))).registry
          = s1.registry := by
        rw [incByMetric_registry, incByMetric_registry, incByMetric_registry]
      refine ⟨?_, ?_, ?_, ?_, ?_, ?_⟩
      · rw [hregall]
        rw [hreg 0 (fun ps hps => (hok ps hps).1)]
        simp [staticSeed, reservedTopic, storeReg]
      · intro ps hps
        obtain ⟨t, ht1, ht2, _⟩ := hmem ps hps
        exact ⟨t, by rw [hregall]; exact ht1, ht2⟩
      · rw [get_incByMetric_ne _ _ _ _ (by decide),
          get_incByMetric_ne _ _ _ _ (by decide), get_incByMetric_eq, hm,
          staticSeed_metrics]
      · rw [get_incByMetric_ne _ _ _ _ (by decide), get_incByMetric_eq,
          get_incByMetric_ne _ _ _ _ (by decide), hm, staticSeed_metrics]
      · rw [get_incByMetric_eq, get_incByMetric_ne _ _ _ _ (by decide),
          get_incByMetric_ne _ _ _ _ (by decide), hm, staticSeed_metrics]
      · intro k hk1 hk2 hk3
        rw [get_incByMetric_ne _ _ _ _ hk3, get_incByMetric_ne _ _ _ _ hk2,
          get_incByMetric_ne _ _ _ _ hk1, hm, staticSeed_metrics]

/-- C7 (witness).  Registering `exStaticCfg` (one static entry, id 1)
succeeds, topic 0 holds the metrics token, and `topics` ends at
`wrap64 (0 + 2)`. -/
theorem claim_C7_static_registration_witness :
    isOkE (registerStaticPubSubs exStaticCfg emptyState) = true
      ∧ exStaticState.registry 0 = some ⟨0, true, [], [109]⟩
      ∧ exStaticState.metrics.get .topics
          = wrap64 (emptyState.metrics.get .topics + Int.ofNat 2) := by
  have hiff := (claim_C7_static_registration exStaticCfg emptyState).1
  have hok : isOkE (registerStaticPubSubs exStaticCfg emptyState) = true :=
    hiff.2 (by decide)
  have hpart := (claim_C7_static_registration exStaticCfg emptyState).2
    exStaticState rfl
  exact ⟨hok, hpart.1, hpart.2.2.1⟩

/-- C8 (counterexample).  The body `{"event": {"message": 5}}` carries
the JSON-serializable value 5 whose serialization is `"5"`, but the
request mapper rejects the body (the `Message` field of the view struct
is a Go `string`, so `json.Unmarshal` fails on a number): the mapper
does not produce a publish request carrying the serialized value. -/
theorem claim_C8_counterexample :
    FromHttpRequestToPublishRequest [97] 1 exNumBody = none
      ∧ serializeJson (Json.num 5) = "5"
      ∧ FromHttpRequestToPublishRequest [97] 1 exNumBody
          ≠ some ⟨[97], 1, serializeJson (Json.num 5)⟩ := by
  have h5 : serializeJson (Json.num 5) = "5" := by
    rw [serializeJson]
    decide
  refine ⟨by decide, h5, ?_⟩
  rw [h5]
  decide

/-- C8 (amended).  Only JSON string values are accepted in the
`message` field: for every string `v`, the mapper produces a publish
request whose message bytes are the decoded contents of `v` (not its
quoted JSON serialization); any non-string value fails the unmarshal
and the request is rejected as malformed payload. -/
theorem claim_C8_publish_message_mapping (apiTok : List Nat) (id : Int)
    (v : String) :
    FromHttpRequestToPublishRequest apiTok id
        (Json.obj [("event", Json.obj [("message", Json.str v)])])
      = some ⟨apiTok, id, v⟩ := rfl

end Sser
